import Mathlib

/-!
Verification development for the EcoScan backend (src/backend.py).

The whole observable logic of the repository is the single FastAPI handler
`upload_image`: it saves the uploaded file, re-reads it, forwards the bytes
to a remote classifier, and assembles a JSON response from the remote answer
and three static lookup tables.  We embed that handler shallowly: the
filesystem is explicit state, the remote HTTP call and every fallible
effect is an oracle input, Python exceptions become an `Except` value, and
the handler's JSON answer is a `Json` term.
-/

namespace EcoScan

/-- JSON values (also used for Python values flowing through the handler:
the parsed remote body, and the response dict).  Python `None` is `Json.null`;
numbers are modelled as rationals. -/
inductive Json where
  | null : Json
  | bool : Bool → Json
  | num  : ℚ → Json
  | str  : String → Json
  | arr  : List Json → Json
  | obj  : List (String × Json) → Json
deriving Repr

/-- Python truthiness of a JSON/Python value: `None`, `False`, `0`, `""`,
`[]` and the empty dict are falsy, everything else truthy. -/
def truthy : Json → Bool
  | .null => false
  | .bool b => b
  | .num q => q != 0
  | .str s => s != ""
  | .arr xs => !xs.isEmpty
  | .obj fs => !fs.isEmpty

/-- Python name of the type of a JSON value, for AttributeError messages. -/
def pyType : Json → String
  | .null => "NoneType"
  | .bool _ => "bool"
  | .num _ => "float"
  | .str _ => "str"
  | .arr _ => "list"
  | .obj _ => "dict"

/-- `d.get(k, default)` on a dict modelled as an association list. -/
def dictGetD (fs : List (String × Json)) (k : String) (d : Json) : Json :=
  match fs.find? (fun p => p.1 = k) with
  | some p => p.2
  | none => d

/-- `d.get(k)` — default is Python `None`, i.e. `Json.null`. -/
def dictGet (fs : List (String × Json)) (k : String) : Json :=
  dictGetD fs k Json.null

/-- Association-list lookup with a default, for the static string tables. -/
def lookupD (m : List (String × String)) (k d : String) : String :=
  match m.find? (fun p => p.1 = k) with
  | some p => p.2
  | none => d

/-- Python `str.lower()` (character-wise; coincides with Python on ASCII,
which covers every key of the static tables). -/
def pyLower (s : String) : String :=
  ⟨s.data.map Char.toLower⟩

/-- `UPLOAD_DIR` from backend.py. -/
def UPLOAD_DIR : String := "uploads"

/-- `ML_SERVICE_URL` from backend.py. -/
def ML_SERVICE_URL : String := "https://ecoscan1.onrender.com/classify_image"

/-- `PARTNER_MAP` from backend.py: category → partner record (a dict with
keys `name` and `contact`). -/
def PARTNER_MAP : List (String × Json) :=
  [ ("Recyclable",
      .obj [("name", .str "TerraCycle"), ("contact", .str "terracycle@example.org")]),
    ("Biodegradable",
      .obj [("name", .str "Hasiru Dala"), ("contact", .str "hasiru@example.org")]),
    ("Non-Recyclable",
      .obj [("name", .str "Municipal Waste"), ("contact", .str "waste@example.org")]),
    ("Hazardous",
      .obj [("name", .str "Attero Recycling"), ("contact", .str "attero@example.org")]) ]

/-- `CATEGORY_MAP` from backend.py: raw ML class → category. -/
def CATEGORY_MAP : List (String × String) :=
  [ ("cardboard", "Recyclable"),
    ("paper", "Recyclable"),
    ("plastic", "Recyclable"),
    ("glass", "Recyclable"),
    ("metal", "Recyclable"),
    ("trash", "Non-Recyclable"),
    ("shoes", "Non-Recyclable"),
    ("biological", "Biodegradable"),
    ("organic", "Biodegradable"),
    ("food", "Biodegradable"),
    ("hazardous", "Hazardous") ]

/-- `ADVICE_MAP` from backend.py: category → advice string. -/
def ADVICE_MAP : List (String × String) :=
  [ ("Recyclable", "Rinse and dry before recycling. Flatten boxes to save space."),
    ("Biodegradable", "Compost if possible, otherwise dispose in organic waste bin."),
    ("Non-Recyclable", "Dispose in general waste. Avoid mixing with recyclables."),
    ("Hazardous", "Handle with care. Dispose through authorized collection centers.") ]

/-- The fallback partner sentinel from backend.py line 103. -/
def unknownPartner : Json :=
  .obj [("name", .str "Unknown"), ("contact", .str "N/A")]

/-- Last index of character `c` in the list, or `-1` (Python `str.rfind`). -/
def rfindAux : List Char → Char → Nat → Int → Int
  | [], _, _, acc => acc
  | x :: xs, c, i, acc => rfindAux xs c (i + 1) (if x = c then Int.ofNat i else acc)

/-- Python `p.rfind(c)`: last index of `c` in `p`, or `-1`. -/
def strRfind (p : String) (c : Char) : Int :=
  rfindAux p.data c 0 (-1)

/-- `os.path.splitext` (posixpath `_splitext` with sep `/`, extsep `.`):
split at the last dot if it lies after the last slash and the basename is
not entirely dots up to it; otherwise the extension is empty. -/
def splitext (p : String) : String × String :=
  let cs := p.data
  let sepIndex := strRfind p '/'
  let dotIndex := strRfind p '.'
  if dotIndex > sepIndex then
    if ((List.range cs.length).any fun i =>
          sepIndex < (i : Int) ∧ (i : Int) < dotIndex ∧ cs.get? i ≠ some '.') then
      (⟨cs.take dotIndex.toNat⟩, ⟨cs.drop dotIndex.toNat⟩)
    else (p, "")
  else (p, "")

/-- One char list starts with another (structural, so that it reduces). -/
def listStarts : List Char → List Char → Bool
  | [], _ => true
  | _ :: _, [] => false
  | a :: as, b :: bs => a = b && listStarts as bs

/-- Python `s.startswith(p)`. -/
def strStarts (s p : String) : Bool := listStarts p.data s.data

/-- Python `s.endswith(p)`. -/
def strEnds (s p : String) : Bool := listStarts p.data.reverse s.data.reverse

/-- `os.path.join(a, b)` for two components (posixpath). -/
def ospathJoin (a b : String) : String :=
  if strStarts b "/" then b
  else if a = "" ∨ strEnds a "/" then a ++ b
  else a ++ "/" ++ b

/-- The uploaded file as received by the handler: original filename,
declared content type, raw bytes. -/
structure UploadedFile where
  filename : String
  content_type : String
  content : List Nat
deriving Repr

/-- The remote classifier's HTTP response: status code, raw body text, and
the body parsed as JSON (`none` when `response.json()` would raise). -/
structure RemoteResp where
  status_code : Nat
  text : String
  json : Option Json
deriving Repr

/-- Failure-injection oracle for the effectful steps: each `some msg` makes
the corresponding call raise an exception with message `msg`; `jsonErrMsg`
is the decode error's message used when the body is not valid JSON. -/
structure Oracle where
  readErr : Option String
  writeErr : Option String
  rereadErr : Option String
  netErr : Option String
  jsonErrMsg : String
deriving Repr

/-- The oracle under which no injected effect fails. -/
def noFail : Oracle := ⟨none, none, none, none, ""⟩

/-- A Python exception as observed by the handler's `except` block:
either a deliberately raised `HTTPException` or any other exception,
reduced to its message. -/
inductive PyExc where
  | httpExc : Nat → String → PyExc
  | other : String → PyExc
deriving Repr

/-- Python `str(e)`: Starlette's `HTTPException.__str__` is
`"<status>: <detail>"`; for other exceptions we carry the message. -/
def PyExc.msg : PyExc → String
  | .httpExc s d => toString s ++ ": " ++ d
  | .other m => m

/-- The error response produced by FastAPI for a raised `HTTPException`. -/
structure ErrorResp where
  status_code : Nat
  detail : String
deriving Repr

/-- The filesystem: a map from path to file bytes. -/
def FS : Type := String → Option (List Nat)

/-- The multipart `files` dict built at backend.py line 83:
`("file", (filename, content, content_type))`. -/
structure Multipart where
  filename : String
  content : List Nat
  content_type : String
deriving Repr

/-- Result of one handler run: the response (success JSON or error), the
filesystem afterwards, and the multipart request forwarded to the
classifier, when one was built. -/
structure HandlerOutcome where
  result : Except ErrorResp Json
  fs : FS
  forwarded : Option Multipart

/-- backend.py line 96: `ml_result.get("confidence") or
ml_result.get("probabilities", \x7b\x7d).get(predicted_class, None)`.
Evaluated left to right with Python `or` short-circuiting on truthiness;
`.get` on a non-dict `probabilities` raises AttributeError, and an
unhashable `predicted_class` key raises TypeError. -/
def confLookup (fields : List (String × Json)) (predicted : Json) : Except PyExc Json :=
  let confA := dictGet fields "confidence"
  if truthy confA then .ok confA
  else
    match dictGetD fields "probabilities" (.obj []) with
    | .obj pf =>
        match predicted with
        | .str s => .ok (dictGet pf s)
        | .arr _ => .error (.other "unhashable type: 'list'")
        | .obj _ => .error (.other "unhashable type: 'dict'")
        | _ => .ok Json.null
    | j => .error (.other ("'" ++ pyType j ++ "' object has no attribute 'get'"))

/-- backend.py lines 92–114: parse handling of the remote JSON body —
extract `prediction` and `confidence`, reject a missing (falsy) prediction,
resolve category, partner and advice, and build the response dict. -/
def processMl (filename : String) (ml : Json) : Except PyExc Json :=
  match ml with
  | .obj fields =>
      let predicted := dictGet fields "prediction"
      match confLookup fields predicted with
      | .error e => .error e
      | .ok confidence =>
          if truthy predicted = false then
            .error (.httpExc 500 "Missing prediction from ML service")
          else
            match predicted with
            | .str pc =>
                let category := lookupD CATEGORY_MAP (pyLower pc) "Unknown"
                let partner := dictGetD PARTNER_MAP category unknownPartner
                let advice := lookupD ADVICE_MAP category
                  "No advice available for this category."
                .ok (.obj
                  [ ("filename", .str filename),
                    ("predicted_class", .str pc),
                    ("confidence", confidence),
                    ("category", .str category),
                    ("partner", partner),
                    ("advice", .str advice) ])
            | j => .error (.other ("'" ++ pyType j ++ "' object has no attribute 'lower'"))
  | j => .error (.other ("'" ++ pyType j ++ "' object has no attribute 'get'"))

/-- backend.py lines 70–114, the body of the `try` block: derive the stored
filename, write the upload, re-read it, forward it to the classifier, and
process the remote response.  Returns the raw outcome (exceptions still as
`PyExc`), the filesystem, and the forwarded multipart request if built. -/
def tryBody (file : UploadedFile) (uuidStr : String) (fs : FS) (o : Oracle)
    (remote : RemoteResp) : Except PyExc Json × FS × Option Multipart :=
  let ext0 := (splitext file.filename).2
  let ext := if ext0 = "" then ".jpg" else ext0
  let filename := uuidStr ++ ext
  let file_path := ospathJoin UPLOAD_DIR filename
  match o.readErr with
  | some m => (.error (.other m), fs, none)
  | none =>
  let content := file.content
  match o.writeErr with
  | some m => (.error (.other m), fs, none)
  | none =>
  let fs1 : FS := fun p => if p = file_path then some content else fs p
  match o.rereadErr with
  | some m => (.error (.other m), fs1, none)
  | none =>
  match fs1 file_path with
  | none => (.error (.other "No such file or directory"), fs1, none)
  | some content2 =>
  let files : Multipart := ⟨filename, content2, file.content_type⟩
  match o.netErr with
  | some m => (.error (.other m), fs1, some files)
  | none =>
  if remote.status_code ≠ 200 then
    (.error (.httpExc 500 ("ML service failed: " ++ remote.text)), fs1, some files)
  else
    match remote.json with
    | none => (.error (.other o.jsonErrMsg), fs1, some files)
    | some ml => (processMl filename ml, fs1, some files)

/-- backend.py lines 116–120: the handler boundary catches every exception
and re-raises `HTTPException(500, "Error processing image: " + str(e))`. -/
def boundary (r : Except PyExc Json) : Except ErrorResp Json :=
  match r with
  | .ok v => .ok v
  | .error e => .error ⟨500, "Error processing image: " ++ e.msg⟩

/-- The handler `upload_image`: the `try` body wrapped in the exception
boundary.  `uuidStr` is the string form of the generated `uuid.uuid4()`. -/
def upload_image (file : UploadedFile) (uuidStr : String) (fs : FS) (o : Oracle)
    (remote : RemoteResp) : HandlerOutcome :=
  let r := tryBody file uuidStr fs o remote
  ⟨boundary r.1, r.2.1, r.2.2⟩

/-- The stored filename generated at backend.py lines 72–73. -/
def genFilename (origName uuidStr : String) : String :=
  uuidStr ++ (if (splitext origName).2 = "" then ".jpg" else (splitext origName).2)

/-- Field `k` of a successful JSON-object response, `none` otherwise. -/
def respField (r : Except ErrorResp Json) (k : String) : Option Json :=
  match r with
  | .ok (.obj fields) => (fields.find? (fun p => p.1 = k)).map (·.2)
  | _ => none

/-- C1: when the classifier answers 200 with prediction "plastic" and
confidence 0.91, the handler's response has predicted_class "plastic",
confidence 0.91 and category "Recyclable". -/
theorem upload_image_plastic_C1 (file : UploadedFile) (uuidStr : String) (fs : FS)
    (t : String) :
    respField (upload_image file uuidStr fs noFail
        ⟨200, t, some (.obj [("prediction", .str "plastic"),
          ("confidence", .num (91/100))])⟩).result "predicted_class"
      = some (.str "plastic") ∧
    respField (upload_image file uuidStr fs noFail
        ⟨200, t, some (.obj [("prediction", .str "plastic"),
          ("confidence", .num (91/100))])⟩).result "confidence"
      = some (.num (91/100)) ∧
    respField (upload_image file uuidStr fs noFail
        ⟨200, t, some (.obj [("prediction", .str "plastic"),
          ("confidence", .num (91/100))])⟩).result "category"
      = some (.str "Recyclable") := by
  refine ⟨?_, ?_, ?_⟩ <;>
    simp [upload_image, tryBody, boundary, processMl, confLookup, dictGet, dictGetD,
      truthy, pyLower, lookupD, CATEGORY_MAP, respField, noFail]

/-- String append is associative. -/
lemma strAppendAssoc (a b c : String) : a ++ b ++ c = a ++ (b ++ c) :=
  String.ext (by simp [String.data_append, List.append_assoc])

/-- C3: when the classifier answers with a non-200 status, the handler
returns HTTP 500 and the detail string names the upstream failure and
carries the remote body text. -/
theorem upload_image_non200_C3 (file : UploadedFile) (uuidStr : String) (fs : FS)
    (status : Nat) (t : String) (j : Option Json) (h : status ≠ 200) :
    (upload_image file uuidStr fs noFail ⟨status, t, j⟩).result
      = .error ⟨500, "Error processing image: 500: ML service failed: " ++ t⟩ := by
  simp [upload_image, tryBody, boundary, noFail, PyExc.msg, h]
  rw [← strAppendAssoc, ← strAppendAssoc]
  rfl

/-- Witness for C3 at status 503. -/
theorem upload_image_non200_C3_witness :
    (upload_image ⟨"a.jpg", "image/jpeg", [7]⟩ "u" (fun _ => none) noFail
        ⟨503, "boom", none⟩).result
      = .error ⟨500, "Error processing image: 500: ML service failed: boom"⟩ :=
  upload_image_non200_C3 ⟨"a.jpg", "image/jpeg", [7]⟩ "u" (fun _ => none) 503 "boom"
    none (by decide)

/-- C6: every exception the try-block raises is caught at the boundary and
becomes one HTTP 500 response whose detail is the fixed prefix followed by
the original exception message; no exception kind gets a different status. -/
theorem upload_image_catch_C6 (file : UploadedFile) (uuidStr : String) (fs : FS)
    (o : Oracle) (remote : RemoteResp) (e : PyExc)
    (h : (tryBody file uuidStr fs o remote).1 = .error e) :
    (upload_image file uuidStr fs o remote).result
      = .error ⟨500, "Error processing image: " ++ e.msg⟩ := by
  simp [upload_image, boundary, h]

/-- Witness for C6: an injected read failure with message "disk full". -/
theorem upload_image_catch_C6_witness :
    (upload_image ⟨"a.jpg", "image/jpeg", [7]⟩ "u" (fun _ => none)
        ⟨some "disk full", none, none, none, ""⟩ ⟨200, "", none⟩).result
      = .error ⟨500, "Error processing image: disk full"⟩ :=
  upload_image_catch_C6 ⟨"a.jpg", "image/jpeg", [7]⟩ "u" (fun _ => none)
    ⟨some "disk full", none, none, none, ""⟩ ⟨200, "", none⟩ (.other "disk full") rfl

/-- C2 counterexample: with body prediction "plastic", confidence 0.0 and
probabilities plastic ↦ 0.5, the claim says the response confidence equals
the confidence field's value 0.0; the handler instead returns 0.5, because
Python `or` treats the falsy 0.0 as absent. -/
theorem upload_image_conf_zero_C2_cx :
    respField (upload_image ⟨"a.jpg", "image/jpeg", [7]⟩ "u" (fun _ => none) noFail
        ⟨200, "", some (.obj [("prediction", .str "plastic"),
          ("confidence", .num 0),
          ("probabilities", .obj [("plastic", .num (1/2))])])⟩).result "confidence"
      = some (.num (1/2)) ∧
    ¬ respField (upload_image ⟨"a.jpg", "image/jpeg", [7]⟩ "u" (fun _ => none) noFail
        ⟨200, "", some (.obj [("prediction", .str "plastic"),
          ("confidence", .num 0),
          ("probabilities", .obj [("plastic", .num (1/2))])])⟩).result "confidence"
      = some (.num 0) := by
  constructor
  · rfl
  · intro heq
    rw [show respField (upload_image ⟨"a.jpg", "image/jpeg", [7]⟩ "u" (fun _ => none)
        noFail ⟨200, "", some (.obj [("prediction", .str "plastic"),
          ("confidence", .num 0),
          ("probabilities", .obj [("plastic", .num (1/2))])])⟩).result "confidence"
      = some (Json.num (1/2)) from rfl] at heq
    simp only [Option.some.injEq, Json.num.injEq] at heq
    norm_num at heq

/-- C2 amended: the response confidence equals the `confidence` field's
value only when that value is truthy; when it is absent or falsy (including
0.0) and `probabilities` is a mapping (the empty mapping when absent), the
confidence is the mapping's entry for the predicted label, null when the
label is not a key. -/
theorem upload_image_confidence_C2 (file : UploadedFile) (uuidStr : String) (fs : FS)
    (t : String) (fields : List (String × Json)) (pc : String)
    (hpred : dictGet fields "prediction" = .str pc) (hne : pc ≠ "") :
    (truthy (dictGet fields "confidence") = true →
      respField (upload_image file uuidStr fs noFail
          ⟨200, t, some (.obj fields)⟩).result "confidence"
        = some (dictGet fields "confidence")) ∧
    (truthy (dictGet fields "confidence") = false →
      ∀ pf, dictGetD fields "probabilities" (.obj []) = .obj pf →
        respField (upload_image file uuidStr fs noFail
            ⟨200, t, some (.obj fields)⟩).result "confidence"
          = some (dictGet pf pc)) := by
  have hp : truthy (Json.str pc) = true := by simp [truthy, hne]
  constructor
  · intro htru
    simp [upload_image, tryBody, boundary, processMl, confLookup, hpred, htru, hp,
      noFail, respField]
  · intro hfls pf hpf
    simp [upload_image, tryBody, boundary, processMl, confLookup, hpred, hfls, hpf,
      hp, noFail, respField]

/-- Witness for C2 amended, at the body with prediction "glass", falsy
confidence 0.0 and probabilities glass ↦ 0.25. -/
theorem upload_image_confidence_C2_witness :
    respField (upload_image ⟨"b.png", "image/png", [1]⟩ "u" (fun _ => none) noFail
        ⟨200, "", some (.obj [("prediction", .str "glass"),
          ("confidence", .num 0),
          ("probabilities", .obj [("glass", .num (1/4))])])⟩).result "confidence"
      = some (.num (1/4)) := by
  have h := (upload_image_confidence_C2 ⟨"b.png", "image/png", [1]⟩ "u" (fun _ => none)
    "" [("prediction", .str "glass"), ("confidence", .num 0),
      ("probabilities", .obj [("glass", .num (1/4))])] "glass" rfl
    (by decide)).2 (by decide) [("glass", .num (1/4))] rfl
  exact h

/-- C4: when the classifier answers 200 but the body is not valid JSON, or
is a JSON object without the `prediction` field, the handler fails the
request with a 500 response. -/
theorem upload_image_malformed_C4 (file : UploadedFile) (uuidStr : String) (fs : FS)
    (remote : RemoteResp) (h200 : remote.status_code = 200)
    (hbad : remote.json = none ∨ ∃ fields, remote.json = some (.obj fields) ∧
      fields.find? (fun p => p.1 = "prediction") = none) :
    ∃ d, (upload_image file uuidStr fs noFail remote).result = .error ⟨500, d⟩ := by
  obtain ⟨status, t, j⟩ := remote
  simp only at h200
  subst h200
  rcases hbad with hj | ⟨fields, hj, hfind⟩ <;> simp only at hj <;> subst hj
  · simp [upload_image, tryBody, boundary, noFail]
  · have hpred : dictGet fields "prediction" = Json.null := by
      simp [dictGet, dictGetD, hfind]
    rcases hcl : confLookup fields Json.null with e | c
    · simp [upload_image, tryBody, boundary, noFail, processMl, hpred, hcl]
    · simp [upload_image, tryBody, boundary, noFail, processMl, hpred, hcl, truthy]

/-- Witness for C4: a 200 answer whose object body lacks `prediction`. -/
theorem upload_image_malformed_C4_witness :
    ∃ d, (upload_image ⟨"a.jpg", "image/jpeg", [7]⟩ "u" (fun _ => none) noFail
      ⟨200, "", some (.obj [("confidence", .num 1)])⟩).result = .error ⟨500, d⟩ :=
  upload_image_malformed_C4 ⟨"a.jpg", "image/jpeg", [7]⟩ "u" (fun _ => none)
    ⟨200, "", some (.obj [("confidence", .num 1)])⟩ rfl
    (Or.inr ⟨[("confidence", .num 1)], rfl, rfl⟩)

/-- C5: a predicted label whose lowercase form is not in CATEGORY_MAP still
yields a successful response, and its partner field is the fallback
sentinel with name "Unknown" and contact "N/A". -/
theorem upload_image_unknown_partner_C5 (file : UploadedFile) (uuidStr : String)
    (fs : FS) (t : String) (fields : List (String × Json)) (pc : String) (c : Json)
    (hpred : dictGet fields "prediction" = .str pc) (hne : pc ≠ "")
    (hconf : confLookup fields (.str pc) = .ok c)
    (hmiss : CATEGORY_MAP.find? (fun p => p.1 = pyLower pc) = none) :
    ∃ body, (upload_image file uuidStr fs noFail
        ⟨200, t, some (.obj fields)⟩).result = .ok body ∧
      respField (.ok body) "partner" = some unknownPartner := by
  have hp : truthy (Json.str pc) = true := by simp [truthy, hne]
  have hcat : lookupD CATEGORY_MAP (pyLower pc) "Unknown" = "Unknown" := by
    simp [lookupD, hmiss]
  refine ⟨Json.obj
    [ ("filename", Json.str (genFilename file.filename uuidStr)),
      ("predicted_class", Json.str pc), ("confidence", c),
      ("category", Json.str "Unknown"), ("partner", unknownPartner),
      ("advice", Json.str "No advice available for this category.") ], ?_, ?_⟩
  · simp [upload_image, tryBody, boundary, processMl, hpred, hconf, hp, hmiss, noFail,
      genFilename, dictGetD, PARTNER_MAP, unknownPartner, lookupD, ADVICE_MAP]
  · simp [respField, unknownPartner]

/-- Witness for C5 at the label "unknownlabel". -/
theorem upload_image_unknown_partner_C5_witness :
    ∃ body, (upload_image ⟨"a.jpg", "image/jpeg", [7]⟩ "u" (fun _ => none) noFail
        ⟨200, "", some (.obj [("prediction", .str "unknownlabel")])⟩).result
        = .ok body ∧
      respField (.ok body) "partner" = some unknownPartner :=
  upload_image_unknown_partner_C5 ⟨"a.jpg", "image/jpeg", [7]⟩ "u" (fun _ => none)
    "" [("prediction", .str "unknownlabel")] "unknownlabel" Json.null rfl
    (by decide) rfl (by decide)

/-- Helper: a successful handler result can only come from the try body. -/
lemma upload_ok_tryBody (file : UploadedFile) (uuidStr : String) (fs : FS)
    (o : Oracle) (remote : RemoteResp) (body : Json)
    (h : (upload_image file uuidStr fs o remote).result = .ok body) :
    (tryBody file uuidStr fs o remote).1 = .ok body := by
  simp only [upload_image, boundary] at h
  split at h
  · rename_i v heq
    obtain rfl : v = body := Except.ok.inj h
    exact heq
  · exact absurd h (by simp)

/-- Helper: a successful try body comes from `processMl` applied to the
parsed remote body and the generated filename. -/
lemma tryBody_ok_processMl (file : UploadedFile) (uuidStr : String) (fs : FS)
    (o : Oracle) (remote : RemoteResp) (body : Json)
    (h : (tryBody file uuidStr fs o remote).1 = .ok body) :
    ∃ ml, remote.json = some ml ∧
      processMl (genFilename file.filename uuidStr) ml = .ok body := by
  obtain ⟨re, we, rre, ne, jm⟩ := o
  obtain ⟨status, t, j⟩ := remote
  cases re with
  | some m => simp [tryBody] at h
  | none =>
  cases we with
  | some m => simp [tryBody] at h
  | none =>
  cases rre with
  | some m => simp [tryBody] at h
  | none =>
  cases ne with
  | some m => simp [tryBody] at h
  | none =>
  by_cases hst : status = 200
  · subst hst
    cases j with
    | none => simp [tryBody] at h
    | some ml =>
        refine ⟨ml, rfl, ?_⟩
        simpa [tryBody, genFilename] using h
  · simp [tryBody, hst] at h

/-- Helper: the forwarded multipart request, when present, carries the
generated filename, the uploaded bytes and the declared content type. -/
lemma tryBody_forwarded (file : UploadedFile) (uuidStr : String) (fs : FS)
    (o : Oracle) (remote : RemoteResp) (mp : Multipart)
    (h : (tryBody file uuidStr fs o remote).2.2 = some mp) :
    mp = ⟨genFilename file.filename uuidStr, file.content, file.content_type⟩ := by
  obtain ⟨re, we, rre, ne, jm⟩ := o
  obtain ⟨status, t, j⟩ := remote
  cases re with
  | some m => simp [tryBody] at h
  | none =>
  cases we with
  | some m => simp [tryBody] at h
  | none =>
  cases rre with
  | some m => simp [tryBody] at h
  | none =>
  cases ne with
  | some m =>
      simp [tryBody] at h
      rw [← h]
      simp [genFilename]
  | none =>
  by_cases hst : status = 200
  · subst hst
    cases j with
    | none =>
        simp [tryBody] at h
        rw [← h]
        simp [genFilename]
    | some ml =>
        simp [tryBody] at h
        rw [← h]
        simp [genFilename]
  · simp [tryBody, hst] at h
    rw [← h]
    simp [genFilename]

/-- Helper: for a run with no injected read or write failure, the handler
leaves the uploaded bytes stored under the joined upload path. -/
lemma tryBody_fs (file : UploadedFile) (uuidStr : String) (fs : FS)
    (rre ne : Option String) (jm : String) (remote : RemoteResp) :
    (tryBody file uuidStr fs ⟨none, none, rre, ne, jm⟩ remote).2.1
      = fun p => if p = ospathJoin UPLOAD_DIR (genFilename file.filename uuidStr)
          then some file.content else fs p := by
  obtain ⟨status, t, j⟩ := remote
  cases rre <;> cases ne <;> by_cases hst : status = 200 <;> cases j <;>
    simp [tryBody, genFilename, hst]

/-- Helper: any successful `processMl` result is the six-field response
dict, with category, partner and advice resolved from the label. -/
lemma processMl_ok_shape (fn : String) (ml : Json) (body : Json)
    (h : processMl fn ml = .ok body) :
    ∃ pc conf, body = Json.obj
      [ ("filename", .str fn),
        ("predicted_class", .str pc), ("confidence", conf),
        ("category", .str (lookupD CATEGORY_MAP (pyLower pc) "Unknown")),
        ("partner", dictGetD PARTNER_MAP
          (lookupD CATEGORY_MAP (pyLower pc) "Unknown") unknownPartner),
        ("advice", .str (lookupD ADVICE_MAP
          (lookupD CATEGORY_MAP (pyLower pc) "Unknown")
          "No advice available for this category.")) ] := by
  cases ml with
  | null => simp [processMl] at h
  | bool b => simp [processMl] at h
  | num q => simp [processMl] at h
  | str s => simp [processMl] at h
  | arr xs => simp [processMl] at h
  | obj fields =>
    simp only [processMl] at h
    rcases hcl : confLookup fields (dictGet fields "prediction") with e | c <;>
      rw [hcl] at h <;> dsimp only at h
    · cases h
    · by_cases htr : truthy (dictGet fields "prediction") = false
      · rw [if_pos htr] at h
        cases h
      · rw [if_neg htr] at h
        cases hp : dictGet fields "prediction" with
        | str s =>
            rw [hp] at h
            exact ⟨s, c, (Except.ok.inj h).symm⟩
        | null => rw [hp] at h; cases h
        | bool b => rw [hp] at h; cases h
        | num q => rw [hp] at h; cases h
        | arr xs => rw [hp] at h; cases h
        | obj ofs => rw [hp] at h; cases h

/-- Helper: any successful handler response is the six-field dict. -/
lemma upload_ok_shape (file : UploadedFile) (uuidStr : String) (fs : FS)
    (o : Oracle) (remote : RemoteResp) (body : Json)
    (h : (upload_image file uuidStr fs o remote).result = .ok body) :
    ∃ pc conf, body = Json.obj
      [ ("filename", .str (genFilename file.filename uuidStr)),
        ("predicted_class", .str pc), ("confidence", conf),
        ("category", .str (lookupD CATEGORY_MAP (pyLower pc) "Unknown")),
        ("partner", dictGetD PARTNER_MAP
          (lookupD CATEGORY_MAP (pyLower pc) "Unknown") unknownPartner),
        ("advice", .str (lookupD ADVICE_MAP
          (lookupD CATEGORY_MAP (pyLower pc) "Unknown")
          "No advice available for this category.")) ] := by
  obtain ⟨ml, _, hml⟩ := tryBody_ok_processMl file uuidStr fs o remote body
    (upload_ok_tryBody file uuidStr fs o remote body h)
  exact processMl_ok_shape _ ml body hml

/-- C7: the response filename is always the generated `<uuid><ext>` name,
the extension defaults to ".jpg" exactly when the original filename has
none, and the file is stored at `<upload-dir>/<uuid><ext>`. -/
theorem upload_image_filename_C7 (file : UploadedFile) (uuidStr : String) (fs : FS)
    (o : Oracle) (remote : RemoteResp)
    (hs : strStarts (genFilename file.filename uuidStr) "/" = false) :
    (∀ body, (upload_image file uuidStr fs o remote).result = .ok body →
      respField (.ok body) "filename"
        = some (.str (genFilename file.filename uuidStr))) ∧
    ((splitext file.filename).2 = "" →
      genFilename file.filename uuidStr = uuidStr ++ ".jpg") ∧
    ((splitext file.filename).2 ≠ "" →
      genFilename file.filename uuidStr = uuidStr ++ (splitext file.filename).2) ∧
    (o.readErr = none → o.writeErr = none →
      (upload_image file uuidStr fs o remote).fs
        (UPLOAD_DIR ++ "/" ++ genFilename file.filename uuidStr)
        = some file.content) := by
  have hjoin : ospathJoin UPLOAD_DIR (genFilename file.filename uuidStr)
      = UPLOAD_DIR ++ "/" ++ genFilename file.filename uuidStr := by
    rw [ospathJoin, hs]
    simp [UPLOAD_DIR, strEnds, listStarts]
  refine ⟨?_, ?_, ?_, ?_⟩
  · intro body hb
    obtain ⟨pc, conf, rfl⟩ := upload_ok_shape file uuidStr fs o remote body hb
    simp [respField]
  · intro he; simp [genFilename, he]
  · intro he; simp [genFilename, he]
  · intro hr hw
    obtain ⟨re, we, rre, ne, jm⟩ := o
    simp only at hr hw
    subst hr; subst hw
    have hfs := tryBody_fs file uuidStr fs rre ne jm remote
    simp only [upload_image]
    rw [hfs, hjoin]
    simp

/-- Witness for C7 at original filename "photo.png" and uuid "u1". -/
theorem upload_image_filename_C7_witness :
    (∀ body, (upload_image ⟨"photo.png", "image/png", [9]⟩ "u1" (fun _ => none)
        noFail ⟨200, "", some (.obj [("prediction", .str "metal")])⟩).result
          = .ok body →
      respField (.ok body) "filename" = some (.str (genFilename "photo.png" "u1"))) ∧
    ((splitext "photo.png").2 = "" → genFilename "photo.png" "u1" = "u1" ++ ".jpg") ∧
    ((splitext "photo.png").2 ≠ "" →
      genFilename "photo.png" "u1" = "u1" ++ (splitext "photo.png").2) ∧
    (noFail.readErr = none → noFail.writeErr = none →
      (upload_image ⟨"photo.png", "image/png", [9]⟩ "u1" (fun _ => none) noFail
          ⟨200, "", some (.obj [("prediction", .str "metal")])⟩).fs
        (UPLOAD_DIR ++ "/" ++ genFilename "photo.png" "u1") = some [9]) :=
  upload_image_filename_C7 ⟨"photo.png", "image/png", [9]⟩ "u1" (fun _ => none)
    noFail ⟨200, "", some (.obj [("prediction", .str "metal")])⟩ rfl

/-- C9: whenever the multipart request for the classifier is built, it
carries exactly the uploaded bytes (written to disk, read back unchanged),
the generated filename and the declared content type. -/
theorem upload_image_roundtrip_C9 (file : UploadedFile) (uuidStr : String) (fs : FS)
    (o : Oracle) (remote : RemoteResp) (mp : Multipart)
    (h : (upload_image file uuidStr fs o remote).forwarded = some mp) :
    mp.content = file.content ∧
    mp.filename = genFilename file.filename uuidStr ∧
    mp.content_type = file.content_type := by
  have hmp := tryBody_forwarded file uuidStr fs o remote mp
    (by simpa [upload_image] using h)
  rw [hmp]
  exact ⟨rfl, rfl, rfl⟩

/-- Witness for C9: the forwarded bytes at a concrete upload. -/
theorem upload_image_roundtrip_C9_witness :
    (⟨"u.jpg", [1, 2, 3], "image/jpeg"⟩ : Multipart).content = [1, 2, 3] ∧
    (⟨"u.jpg", [1, 2, 3], "image/jpeg"⟩ : Multipart).filename
      = genFilename "a.jpg" "u" ∧
    (⟨"u.jpg", [1, 2, 3], "image/jpeg"⟩ : Multipart).content_type = "image/jpeg" :=
  upload_image_roundtrip_C9 ⟨"a.jpg", "image/jpeg", [1, 2, 3]⟩ "u" (fun _ => none)
    noFail ⟨200, "", some (.obj [("prediction", .str "paper")])⟩
    ⟨"u.jpg", [1, 2, 3], "image/jpeg"⟩ rfl

/-- C8: category lookup is case-insensitive — a label whose lowercase form
is a key of CATEGORY_MAP resolves to that key's category, while the
response's predicted_class keeps the original casing. -/
theorem upload_image_case_C8 (file : UploadedFile) (uuidStr : String) (fs : FS)
    (t : String) (fields : List (String × Json)) (pc cat : String) (c : Json)
    (hpred : dictGet fields "prediction" = .str pc) (hne : pc ≠ "")
    (hconf : confLookup fields (.str pc) = .ok c)
    (hcat : (pyLower pc, cat) ∈ CATEGORY_MAP) :
    ∃ body, (upload_image file uuidStr fs noFail
        ⟨200, t, some (.obj fields)⟩).result = .ok body ∧
      respField (.ok body) "category" = some (.str cat) ∧
      respField (.ok body) "predicted_class" = some (.str pc) := by
  have hp : truthy (Json.str pc) = true := by simp [truthy, hne]
  have hlook : lookupD CATEGORY_MAP (pyLower pc) "Unknown" = cat := by
    simp only [CATEGORY_MAP, List.mem_cons, List.not_mem_nil, or_false,
      Prod.mk.injEq] at hcat
    rcases hcat with ⟨h1, h2⟩ | ⟨h1, h2⟩ | ⟨h1, h2⟩ | ⟨h1, h2⟩ | ⟨h1, h2⟩ | ⟨h1, h2⟩ |
      ⟨h1, h2⟩ | ⟨h1, h2⟩ | ⟨h1, h2⟩ | ⟨h1, h2⟩ | ⟨h1, h2⟩ <;> subst h2 <;>
      rw [h1] <;> rfl
  refine ⟨Json.obj
    [ ("filename", Json.str (genFilename file.filename uuidStr)),
      ("predicted_class", Json.str pc), ("confidence", c),
      ("category", Json.str cat),
      ("partner", dictGetD PARTNER_MAP cat unknownPartner),
      ("advice", Json.str (lookupD ADVICE_MAP cat
        "No advice available for this category.")) ], ?_, ?_, ?_⟩
  · simp [upload_image, tryBody, boundary, processMl, hpred, hconf, hp, hlook,
      noFail, genFilename]
  · simp [respField]
  · simp [respField]

/-- Witness for C8 at the mixed-case label "PLAstic". -/
theorem upload_image_case_C8_witness :
    ∃ body, (upload_image ⟨"a.jpg", "image/jpeg", [7]⟩ "u" (fun _ => none) noFail
        ⟨200, "", some (.obj [("prediction", .str "PLAstic")])⟩).result
        = .ok body ∧
      respField (.ok body) "category" = some (.str "Recyclable") ∧
      respField (.ok body) "predicted_class" = some (.str "PLAstic") :=
  upload_image_case_C8 ⟨"a.jpg", "image/jpeg", [7]⟩ "u" (fun _ => none) ""
    [("prediction", .str "PLAstic")] "PLAstic" "Recyclable" Json.null rfl
    (by decide) rfl (by decide)

/-- C10: every successful response carries all six fields — filename,
predicted_class, confidence, category, partner, advice — and for a label
missing from CATEGORY_MAP the category is "Unknown" and the advice is the
fixed fallback string. -/
theorem upload_image_fields_C10 (file : UploadedFile) (uuidStr : String) (fs : FS)
    (o : Oracle) (remote : RemoteResp) (body : Json)
    (h : (upload_image file uuidStr fs o remote).result = .ok body) :
    (∀ k, k ∈ ["filename", "predicted_class", "confidence", "category",
        "partner", "advice"] → respField (.ok body) k ≠ none) ∧
    (∀ pc, respField (.ok body) "predicted_class" = some (.str pc) →
      CATEGORY_MAP.find? (fun p => p.1 = pyLower pc) = none →
      respField (.ok body) "category" = some (.str "Unknown") ∧
      respField (.ok body) "advice"
        = some (.str "No advice available for this category.")) := by
  obtain ⟨pc, conf, rfl⟩ := upload_ok_shape file uuidStr fs o remote body h
  constructor
  · intro k hk
    fin_cases hk <;> simp [respField]
  · intro pc' hpc' hfind
    have hpc : pc' = pc := by
      have := hpc'
      simp [respField] at this
      exact this.symm
    subst hpc
    constructor <;> simp [respField, lookupD, hfind, ADVICE_MAP]

/-- Witness for C10 at a successful run with the unmapped label "stone". -/
theorem upload_image_fields_C10_witness :
    (∀ k, k ∈ ["filename", "predicted_class", "confidence", "category",
        "partner", "advice"] →
      respField (.ok (Json.obj
        [ ("filename", .str "u.jpg"), ("predicted_class", .str "stone"),
          ("confidence", .null), ("category", .str "Unknown"),
          ("partner", unknownPartner),
          ("advice", .str "No advice available for this category.") ])) k ≠ none) ∧
    (∀ pc, respField (.ok (Json.obj
        [ ("filename", .str "u.jpg"), ("predicted_class", .str "stone"),
          ("confidence", .null), ("category", .str "Unknown"),
          ("partner", unknownPartner),
          ("advice", .str "No advice available for this category.") ]))
        "predicted_class" = some (.str pc) →
      CATEGORY_MAP.find? (fun p => p.1 = pyLower pc) = none →
      respField (.ok (Json.obj
        [ ("filename", .str "u.jpg"), ("predicted_class", .str "stone"),
          ("confidence", .null), ("category", .str "Unknown"),
          ("partner", unknownPartner),
          ("advice", .str "No advice available for this category.") ]))
        "category" = some (.str "Unknown") ∧
      respField (.ok (Json.obj
        [ ("filename", .str "u.jpg"), ("predicted_class", .str "stone"),
          ("confidence", .null), ("category", .str "Unknown"),
          ("partner", unknownPartner),
          ("advice", .str "No advice available for this category.") ]))
        "advice" = some (.str "No advice available for this category.")) :=
  upload_image_fields_C10 ⟨"a.jpg", "image/jpeg", [7]⟩ "u" (fun _ => none) noFail
    ⟨200, "", some (.obj [("prediction", .str "stone")])⟩
    (Json.obj
      [ ("filename", .str "u.jpg"), ("predicted_class", .str "stone"),
        ("confidence", .null), ("category", .str "Unknown"),
        ("partner", unknownPartner),
        ("advice", .str "No advice available for this category.") ]) rfl

end EcoScan
